import Mathlib

/-!
Verification development for the aionet-api backend: a shallow embedding of the
pAION token ledger service (src/services/paion-token-service.js), the
governance service (src/unnamed/part_015, i.e. the governance-service module),
the pAION HTTP controller (src/controllers/payments/paion-controller.js) and
the amount-validation middleware (src/middleware/validation.js), together with
theorems settling the frozen claims about them.

Conventions: monetary amounts and balances are exact rationals (the JS numbers
never matter bit-for-bit in the claims), timestamps are natural numbers of
milliseconds, and store rows are association lists keyed by address or id.
Where a claim depends on a database-side stored procedure that is not part of
this repository, the procedure's effect is modelled from the spec and the
definition says so in its doc comment.
-/

namespace Aionet

/-! ## Amount validation middleware (src/middleware/validation.js) -/

/-- A request-body `amount` value as seen by `validateAmount`: absent
(`undefined`/`null`), a numeric value whose parsed (`parseFloat`) value is `q`
(this covers both JSON numbers and numeric strings), or a truthy non-numeric
value whose parse yields `NaN`. A numeric `0` is falsy in JS, which the
controller-level `!amount` checks observe through `AmountInput.truthy`. -/
inductive AmountInput where
  | missing
  | num (q : ℚ)
  | nonNumeric
deriving DecidableEq

/-- JS truthiness of the raw amount value: absent and `0` are falsy. -/
def AmountInput.truthy : AmountInput → Bool
  | .missing => false
  | .num q => decide (q ≠ 0)
  | .nonNumeric => true

/-- Result of `validateAmount`: either an error message or the parsed value. -/
inductive AmountValidation where
  | invalid (error : String)
  | valid (value : ℚ)
deriving DecidableEq

/-- validateAmount of src/middleware/validation.js lines 57-77. -/
def validateAmount : AmountInput → AmountValidation
  | .missing => .invalid "Amount is required"
  | .nonNumeric => .invalid "Amount must be a valid number"
  | .num q =>
    if q ≤ 0 then .invalid "Amount must be greater than 0"
    else if 1000000 < q then .invalid "Amount is too large"
    else .valid q

/-! ## pAION controller (src/controllers/payments/paion-controller.js)

Each handler is modelled up to the token-service boundary: the outcome is
either a 400 response (with the error message and code the controller sends)
or the invocation of the corresponding token-service method with the validated
amount. Required string fields from the request body are modelled as `String`
with JS truthiness `≠ ""` (an absent field behaves like the empty string). -/

/-- Outcome of a paion controller handler at the token-service boundary. -/
inductive HandlerOutcome where
  | badRequest (error : String) (code : String)
  | serviceInvoked (amount : ℚ)
deriving DecidableEq

/-- transferTokens handler, src/controllers/payments/paion-controller.js
lines 75-103 (field checks and amount validation before the service call). -/
def transferTokensHandler (to_address : String) (amount : AmountInput) :
    HandlerOutcome :=
  if to_address = "" ∨ amount.truthy = false then
    .badRequest "to_address and amount are required" "MISSING_FIELDS"
  else
    match validateAmount amount with
    | .invalid e => .badRequest e "INVALID_AMOUNT"
    | .valid v => .serviceInvoked v

/-- addTokens handler, lines 129-158. -/
def addTokensHandler (user_address : String) (amount : AmountInput)
    (description : String) : HandlerOutcome :=
  if user_address = "" ∨ amount.truthy = false ∨ description = "" then
    .badRequest "user_address, amount, and description are required" "MISSING_FIELDS"
  else
    match validateAmount amount with
    | .invalid e => .badRequest e "INVALID_AMOUNT"
    | .valid v => .serviceInvoked v

/-- spendTokens handler, lines 184-213. -/
def spendTokensHandler (user_address : String) (amount : AmountInput)
    (description : String) : HandlerOutcome :=
  if user_address = "" ∨ amount.truthy = false ∨ description = "" then
    .badRequest "user_address, amount, and description are required" "MISSING_FIELDS"
  else
    match validateAmount amount with
    | .invalid e => .badRequest e "INVALID_AMOUNT"
    | .valid v => .serviceInvoked v

/-- lockTokens handler, lines 239-277. `unlockParsed` is the parsed
`unlock_date` (`none` when `new Date(unlock_date)` is invalid). -/
def lockTokensHandler (amount : AmountInput) (description unlock_date : String)
    (unlockParsed : Option ℕ) (now : ℕ) : HandlerOutcome :=
  if amount.truthy = false ∨ description = "" ∨ unlock_date = "" then
    .badRequest "amount, description, and unlock_date are required" "MISSING_FIELDS"
  else
    match validateAmount amount with
    | .invalid e => .badRequest e "INVALID_AMOUNT"
    | .valid v =>
      match unlockParsed with
      | none => .badRequest "unlock_date must be a valid future date" "INVALID_UNLOCK_DATE"
      | some d =>
        if d ≤ now then
          .badRequest "unlock_date must be a valid future date" "INVALID_UNLOCK_DATE"
        else .serviceInvoked v

/-- unlockTokens handler, lines 303-331. -/
def unlockTokensHandler (amount : AmountInput) (description : String) :
    HandlerOutcome :=
  if amount.truthy = false ∨ description = "" then
    .badRequest "amount and description are required" "MISSING_FIELDS"
  else
    match validateAmount amount with
    | .invalid e => .badRequest e "INVALID_AMOUNT"
    | .valid v => .serviceInvoked v

/-! ## pAION token service (src/services/paion-token-service.js)

The service keeps an in-memory TTL cache (`this.cache`, a `Map`) in front of
the `paion_balances` table. Both are modelled as association lists. The store
side of a mutation is a database stored procedure (`update_paion_balance`,
`transfer_paion_tokens`) that is not part of this repository; its effect is
modelled from the spec where needed and marked as such. -/

/-- A paion_balances row (the columns `getUserBalance` selects, without the
timestamp). -/
structure BalanceRecord where
  balance : ℚ
  total_earned : ℚ
  total_spent : ℚ
  locked_amount : ℚ
deriving DecidableEq

/-- The zero-valued default record the service substitutes when the balance
read yields no data (lines 64-70 and 77-83). -/
def defaultBalance : BalanceRecord :=
  { balance := 0, total_earned := 0, total_spent := 0, locked_amount := 0 }

/-- One cache entry of the service's `Map`. A `ttl` of `none` models a
`setCachedData(key, data)` call that omits the ttl argument (line 71): the
stored ttl is then `undefined`, the expiry comparison
`Date.now() - timestamp > undefined` is always false, and the entry never
expires. -/
structure CacheEntry where
  data : BalanceRecord
  timestamp : ℕ
  ttl : Option ℕ
deriving DecidableEq

/-- The balance cache, keyed by the `balance_${userAddress}` strings. -/
abbrev BalanceCache := List (String × CacheEntry)

/-- CACHE_TTL.balance = 2 * 60 * 1000 milliseconds (line 14). -/
def CACHE_TTL_balance : ℕ := 2 * 60 * 1000

/-- getCachedData (lines 31-41): return the entry's data if it is fresh;
delete the entry and return nothing if it has expired. The result pairs the
optional value with the updated cache. -/
def getCachedData (now : ℕ) (cache : BalanceCache) (key : String) :
    Option BalanceRecord × BalanceCache :=
  match cache.lookup key with
  | none => (none, cache)
  | some e =>
    match e.ttl with
    | some t =>
      if t < now - e.timestamp then (none, cache.filter (fun kv => kv.1 != key))
      else (some e.data, cache)
    | none => (some e.data, cache)

/-- setCachedData (lines 23-29): `Map.set` replaces any entry under the key. -/
def setCachedData (cache : BalanceCache) (key : String) (data : BalanceRecord)
    (timestamp : ℕ) (ttl : Option ℕ) : BalanceCache :=
  (key, { data := data, timestamp := timestamp, ttl := ttl }) ::
    cache.filter (fun kv => kv.1 != key)

/-- Map.delete of a cache key (lines 116, 158, 199-200, 326, 356). -/
def deleteCacheKey (cache : BalanceCache) (key : String) : BalanceCache :=
  cache.filter (fun kv => kv.1 != key)

/-- Outcome of the `.single()` read of one paion_balances row as the service
sees it: a data row, the PostgREST no-row error `PGRST116`, a missing-table
error (`PGRST106` or a message containing "does not exist"), or any other
store error. -/
inductive BalanceRead where
  | row (r : BalanceRecord)
  | errNoRow
  | errMissingTable
  | errOther
deriving DecidableEq

/-- getUserBalance (lines 46-91), parameterized by the store's response
`read` for the address. Result: the returned record (`none` when the service
rethrows the store error) and the updated cache. On a fresh cache hit the
store is not consulted at all; on `PGRST116`/missing-table errors the
zero-valued default is returned and cached without a ttl; any other store
error is rethrown. -/
def getUserBalanceFrom (now : ℕ) (cache : BalanceCache) (userAddress : String)
    (read : BalanceRead) : Option BalanceRecord × BalanceCache :=
  let key := "balance_" ++ userAddress
  match getCachedData now cache key with
  | (some cached, c) => (some cached, c)
  | (none, c) =>
    match read with
    | .row r => (some r, setCachedData c key r now (some CACHE_TTL_balance))
    | .errNoRow => (some defaultBalance, setCachedData c key defaultBalance now none)
    | .errMissingTable => (some defaultBalance, setCachedData c key defaultBalance now none)
    | .errOther => (none, c)

/-- The state a service call runs against: the paion_balances table and the
in-memory cache. -/
structure LedgerState where
  balances : List (String × BalanceRecord)
  cache : BalanceCache
deriving DecidableEq

/-- A `.single()` select of the row for an address: a missing row surfaces as
the PostgREST error `PGRST116`. -/
def readBalanceRow (balances : List (String × BalanceRecord))
    (addr : String) : BalanceRead :=
  match balances.lookup addr with
  | some r => .row r
  | none => .errNoRow

/-- The stored balance the claims compare against: the row for the address,
or the zero-valued record for an address with no row yet. -/
def storedBalance (balances : List (String × BalanceRecord))
    (addr : String) : BalanceRecord :=
  (balances.lookup addr).getD defaultBalance

/-- Transaction types of the mutation procedures used by the service. -/
inductive TransType where
  | earned
  | spent
deriving DecidableEq

/-- Upsert of one balance row (lazy creation from the zero record). -/
def updateRow (balances : List (String × BalanceRecord)) (addr : String)
    (f : BalanceRecord → BalanceRecord) : List (String × BalanceRecord) :=
  match balances.lookup addr with
  | some r => (addr, f r) :: balances.filter (fun kv => kv.1 != addr)
  | none => (addr, f defaultBalance) :: balances

/-- Modelled from the spec: the database procedure `update_paion_balance` is
referenced (lines 100, 142) but its body is not in this repository (design
note "Stored-procedure opacity"). Spec section 4.1 credit/debit give its
effect: apply `amount_change` to `balance` and bump the lifetime counter for
the transaction type; rows are created lazily from zero. The transaction-log
append is not needed by any claim and is omitted. -/
def update_paion_balance (balances : List (String × BalanceRecord))
    (addr : String) (amountChange : ℚ) (transType : TransType) :
    List (String × BalanceRecord) :=
  updateRow balances addr (fun r =>
    match transType with
    | .earned => { r with balance := r.balance + amountChange,
                          total_earned := r.total_earned + amountChange }
    | .spent => { r with balance := r.balance + amountChange,
                         total_spent := r.total_spent - amountChange })

/-- Modelled from the spec: the database procedure `transfer_paion_tokens`
(line 185) is not in this repository. Spec section 4.1 transfer gives its
effect: atomically debit the sender and credit the receiver by the same
amount. -/
def transfer_paion_tokens (balances : List (String × BalanceRecord))
    (fromAddr toAddr : String) (amount : ℚ) : List (String × BalanceRecord) :=
  let afterDebit := updateRow balances fromAddr (fun r =>
    { r with balance := r.balance - amount, total_spent := r.total_spent + amount })
  updateRow afterDebit toAddr (fun r =>
    { r with balance := r.balance + amount, total_earned := r.total_earned + amount })

/-- Result of spendTokens as reported to the caller. -/
inductive SpendResult where
  | insufficientBalance
  | ok
  | storeError
deriving DecidableEq

/-- spendTokens (lines 129-166): read the balance through `getUserBalance`
(hence possibly from the cache), fail when it is below the amount, otherwise
run the `update_paion_balance` procedure and clear the sender's cache key. -/
def spendTokens (now : ℕ) (st : LedgerState) (userAddress : String)
    (amount : ℚ) : SpendResult × LedgerState :=
  match getUserBalanceFrom now st.cache userAddress
      (readBalanceRow st.balances userAddress) with
  | (none, c) => (.storeError, { st with cache := c })
  | (some balance, c) =>
    if balance.balance < amount then
      (.insufficientBalance, { st with cache := c })
    else
      (.ok, { balances := update_paion_balance st.balances userAddress (-amount) .spent,
              cache := deleteCacheKey c ("balance_" ++ userAddress) })

/-- Result of transferTokens as reported to the caller. -/
inductive TransferResult where
  | insufficientBalance
  | ok
  | storeError
deriving DecidableEq

/-- transferTokens (lines 171-208): read the sender's balance through
`getUserBalance` (hence possibly from the cache), fail when it is below the
amount, otherwise run the `transfer_paion_tokens` procedure and clear both
cache keys. There is no check that the sender and recipient differ. -/
def transferTokens (now : ℕ) (st : LedgerState) (fromAddress toAddress : String)
    (amount : ℚ) : TransferResult × LedgerState :=
  match getUserBalanceFrom now st.cache fromAddress
      (readBalanceRow st.balances fromAddress) with
  | (none, c) => (.storeError, { st with cache := c })
  | (some senderBalance, c) =>
    if senderBalance.balance < amount then
      (.insufficientBalance, { st with cache := c })
    else
      (.ok, { balances := transfer_paion_tokens st.balances fromAddress toAddress amount,
              cache := deleteCacheKey (deleteCacheKey c ("balance_" ++ fromAddress))
                         ("balance_" ++ toAddress) })

/-! ## pAION statistics (src/services/paion-token-service.js lines 271-303) -/

/-- The aggregate getTokenStatistics returns. -/
structure TokenStats where
  totalSupply : ℚ
  circulatingSupply : ℚ
  totalHolders : ℕ
  totalSpent : ℚ
  averageBalance : ℚ
deriving DecidableEq

/-- getTokenStatistics aggregation over the full paion_balances selection
(lines 287-295, a cold-cache call). Note the average divides by the number of
rows, `balances.length`, not by the number of holders. -/
def getTokenStatistics (balances : List BalanceRecord) : TokenStats :=
  { totalSupply := (balances.map (·.total_earned)).sum
    circulatingSupply := (balances.map (·.balance)).sum
    totalHolders := (balances.filter (fun b => decide (0 < b.balance))).length
    totalSpent := (balances.map (·.total_spent)).sum
    averageBalance :=
      if 0 < balances.length then
        (balances.map (·.balance)).sum / (balances.length : ℚ)
      else 0 }

/-- The average the spec sentence states: circulatingSupply / totalHolders,
and 0 when there are no holders. Defined only to compare against the code's
`getTokenStatistics`. -/
def specAverageBalance (balances : List BalanceRecord) : ℚ :=
  let s := getTokenStatistics balances
  if 0 < s.totalHolders then s.circulatingSupply / (s.totalHolders : ℚ) else 0


/-! ## Governance service (src/unnamed/part_015, the governance-service module)

Proposals, votes and the user_nft_tiers table are association lists; the
service's in-memory proposal cache stores the processed proposal (including
the `is_active` flag computed when the entry was filled). -/

/-- Proposal status values. -/
inductive PStatus where
  | pending
  | active
  | completed
  | cancelled
deriving DecidableEq

/-- A governance_proposals row (the fields the claims touch; `created_at` and
`metadata` are carried nowhere relevant and omitted). -/
structure Proposal where
  id : ℕ
  creator_address : String
  title : String
  description : String
  category : String
  options : List String
  status : PStatus
  start_date : ℕ
  end_date : ℕ
deriving DecidableEq

/-- A governance_votes row (without `reasoning` and `created_at`). -/
structure Vote where
  proposal_id : ℕ
  voter_address : String
  option : String
  voting_power : ℕ
deriving DecidableEq

/-- The processed proposal `getProposal` builds and caches: the row plus the
`is_active` flag computed at processing time (lines 231-238). A later cache
hit returns this snapshot unchanged. -/
structure ProcessedProposal where
  proposal : Proposal
  is_active : Bool
deriving DecidableEq

/-- One entry of the governance cache (`setCachedData`, lines 43-49). -/
structure GovCacheEntry where
  data : ProcessedProposal
  timestamp : ℕ
  ttl : ℕ
deriving DecidableEq

/-- Governance service state: the two tables, the tier table behind
`getUserVotingPower`, and the in-memory cache keyed by proposal id (the
`proposal_${id}` keys; the other cache keys play no role in the claims). -/
structure GovState where
  proposals : List Proposal
  votes : List Vote
  tiers : List (String × String)
  cache : List (ℕ × GovCacheEntry)
deriving DecidableEq

/-- CACHE_TTL.proposals = 2 * 60 * 1000 milliseconds (line 11). -/
def CACHE_TTL_proposals : ℕ := 2 * 60 * 1000

/-- Governance getCachedData (lines 35-41): fresh iff `now - timestamp < ttl`
(no deletion of expired entries in this service). -/
def govGetCached (now : ℕ) (cache : List (ℕ × GovCacheEntry)) (pid : ℕ) :
    Option ProcessedProposal :=
  match cache.lookup pid with
  | some e => if now - e.timestamp < e.ttl then some e.data else none
  | none => none

/-- Governance setCachedData (lines 43-49). -/
def govSetCached (cache : List (ℕ × GovCacheEntry)) (pid : ℕ)
    (data : ProcessedProposal) (timestamp ttl : ℕ) : List (ℕ × GovCacheEntry) :=
  (pid, { data := data, timestamp := timestamp, ttl := ttl }) ::
    cache.filter (fun kv => kv.1 != pid)

/-- Map.delete of one proposal's cache entry (line 300). -/
def govDeleteCached (cache : List (ℕ × GovCacheEntry)) (pid : ℕ) :
    List (ℕ × GovCacheEntry) :=
  cache.filter (fun kv => kv.1 != pid)

/-- Outcome of the `.single()` read of a user_nft_tiers row. -/
inductive TierRead where
  | row (tier : String)
  | errNoRow
  | errOther
deriving DecidableEq

/-- VOTING_POWER tier table (lines 18-22). -/
def VOTING_POWER : List (String × ℕ) := [("NOMAD", 1), ("PRO", 3), ("ROYAL", 5)]

/-- getUserVotingPower (lines 54-73), parameterized by the tier-row read
outcome. `PGRST116` (no row) leaves the tier at the `'NOMAD'` fallback; any
other store error is thrown, caught by the function's own catch block, and
the default power 1 is returned instead of surfacing the error. -/
def getUserVotingPower : TierRead → ℕ
  | .row t => (VOTING_POWER.lookup t).getD 1
  | .errNoRow => (VOTING_POWER.lookup "NOMAD").getD 1
  | .errOther => 1

/-- The tier-row read for an address against the table. -/
def readTierRow (tiers : List (String × String)) (addr : String) : TierRead :=
  match tiers.lookup addr with
  | some t => .row t
  | none => .errNoRow

/-- PROPOSAL_REQUIREMENTS.MIN_VOTING_POWER (line 26). -/
def MIN_VOTING_POWER : ℕ := 3

/-- PROPOSAL_REQUIREMENTS.VOTING_DURATION = 7 days in milliseconds (line 27). -/
def VOTING_DURATION : ℕ := 7 * 24 * 60 * 60 * 1000

/-- The request body of createProposal. `options` is `none` when the field is
absent or null (then `proposalData.options || ['Yes','No']` substitutes the
default); an empty array is truthy in JS and is kept as-is, hence
`some []` stays `[]`. A client may also send a `durationDays` field; the
service never reads it, so it is carried here only to state that fact. -/
structure ProposalData where
  title : String
  description : String
  category : String
  options : Option (List String)
  durationDays : Option ℕ
deriving DecidableEq

/-- Result of createProposal. -/
inductive CreateResult where
  | ok (proposal : Proposal)
  | insufficientVotingPower
  | missingFields
deriving DecidableEq

/-- createProposal (lines 78-126): require voting power at least
MIN_VOTING_POWER, require title/description/category truthy, then insert the
row with `status = 'active'`, `start_date = now`, and
`end_date = now + VOTING_DURATION`. The inserted id stands for the
store-assigned key. No validation of `options` is performed. -/
def createProposal (now : ℕ) (st : GovState) (userAddress : String)
    (d : ProposalData) : CreateResult × GovState :=
  let votingPower := getUserVotingPower (readTierRow st.tiers userAddress)
  if votingPower < MIN_VOTING_POWER then (.insufficientVotingPower, st)
  else if d.title = "" ∨ d.description = "" ∨ d.category = "" then
    (.missingFields, st)
  else
    let p : Proposal :=
      { id := st.proposals.length
        creator_address := userAddress
        title := d.title
        description := d.description
        category := d.category
        options := d.options.getD ["Yes", "No"]
        status := .active
        start_date := now
        end_date := now + VOTING_DURATION }
    (.ok p, { st with proposals := st.proposals ++ [p] })

/-- The processed proposal getProposal builds (lines 231-238):
`is_active = (status == 'active') && (end_date > now)`. -/
def processProposal (now : ℕ) (p : Proposal) : ProcessedProposal :=
  { proposal := p
    is_active := p.status == .active && decide (now < p.end_date) }

/-- Row lookup in governance_proposals by id. -/
def findProposal (props : List Proposal) (pid : ℕ) : Option Proposal :=
  props.find? (fun p => p.id == pid)

/-- getProposal (lines 194-246): serve the cached processed proposal if fresh,
otherwise read the row (`none` models the thrown `.single()` error when there
is no such proposal), process it and cache it. -/
def getProposal (now : ℕ) (st : GovState) (proposalId : ℕ) :
    Option (ProcessedProposal × GovState) :=
  match govGetCached now st.cache proposalId with
  | some cached => some (cached, st)
  | none =>
    match findProposal st.proposals proposalId with
    | none => none
    | some p =>
      let proc := processProposal now p
      some (proc, { st with
        cache := govSetCached st.cache proposalId proc now CACHE_TTL_proposals })

/-- The first governance_votes row for a (proposal, voter) pair: what the
existing-vote select of castVote (lines 262-267) returns when the store read
succeeds. -/
def findVote (votes : List Vote) (pid : ℕ) (voter : String) : Option Vote :=
  votes.find? (fun v => v.proposal_id == pid && v.voter_address == voter)

/-- Outcome of the `.single()` existing-vote select of castVote: a vote row,
the no-row outcome, or a store read failure. -/
inductive VoteRead where
  | row (v : Vote)
  | errNoRow
  | errOther
deriving DecidableEq

/-- The destructuring `const { data: existingVote } = ...` at line 262: only
`data` is kept and the select's `error` is discarded, so a failed store read
yields the same null `existingVote` as the no-row outcome. -/
def VoteRead.data : VoteRead → Option Vote
  | .row v => some v
  | .errNoRow => none
  | .errOther => none

/-- The existing-vote select in an execution whose store read succeeds. -/
def readVoteRow (votes : List Vote) (pid : ℕ) (voter : String) : VoteRead :=
  match findVote votes pid voter with
  | some v => .row v
  | none => .errNoRow

/-- Result of castVote, one constructor per thrown error. -/
inductive VoteResult where
  | ok (vote : Vote)
  | proposalNotFound
  | notActive
  | alreadyVoted
  | invalidOption
deriving DecidableEq

/-- castVote (lines 251-309), in the code's check order and parameterized by
the store's response `voteRead` to the existing-vote select: fetch the
(possibly cached) proposal, require `is_active`, reject when `existingVote`
(the select's data, its error discarded) is non-null, validate the option
against the proposal's options, snapshot the voting power, insert the vote
and drop the proposal's cache entry. Because the select's error is discarded,
a failed read (`.errOther`) passes the duplicate check exactly like the
no-row outcome. -/
def castVoteFrom (now : ℕ) (st : GovState) (userAddress : String)
    (proposalId : ℕ) (opt : String) (voteRead : VoteRead) :
    VoteResult × GovState :=
  match getProposal now st proposalId with
  | none => (.proposalNotFound, st)
  | some (proposal, st1) =>
    if proposal.is_active = false then (.notActive, st1)
    else
      match voteRead.data with
      | some _ => (.alreadyVoted, st1)
      | none =>
        if proposal.proposal.options.contains opt = false then
          (.invalidOption, st1)
        else
          let votingPower := getUserVotingPower (readTierRow st1.tiers userAddress)
          let v : Vote :=
            { proposal_id := proposalId
              voter_address := userAddress
              option := opt
              voting_power := votingPower }
          (.ok v, { st1 with
            votes := st1.votes ++ [v]
            cache := govDeleteCached st1.cache proposalId })

/-- castVote in a failure-free execution: the existing-vote select reads the
vote table (getProposal leaves the votes unchanged, so reading them from the
pre-call state is the same table the code queries after it). -/
def castVote (now : ℕ) (st : GovState) (userAddress : String) (proposalId : ℕ)
    (opt : String) : VoteResult × GovState :=
  castVoteFrom now st userAddress proposalId opt
    (readVoteRow st.votes proposalId userAddress)

/-- Two votes collide when they are for the same proposal by the same voter. -/
def sameVoter (a b : Vote) : Prop :=
  a.proposal_id = b.proposal_id ∧ a.voter_address = b.voter_address

/-- The vote table holds at most one vote per (proposal, voter) pair. -/
def dupFree (votes : List Vote) : Prop :=
  List.Pairwise (fun a b => ¬ sameVoter a b) votes

/-- One castVote request of a sequential trace. -/
structure VoteReq where
  now : ℕ
  voter : String
  proposalId : ℕ
  option : String

/-- Run a sequence of castVote requests, threading the state. -/
def runVotes (st : GovState) : List VoteReq → GovState
  | [] => st
  | r :: rs => runVotes (castVote r.now st r.voter r.proposalId r.option).2 rs

/-- isExpired: the row filter of the closeExpiredProposals update (lines
427-428): `status = 'active'` and `end_date < now`, strictly. -/
def isExpired (now : ℕ) (p : Proposal) : Bool :=
  p.status == .active && decide (p.end_date < now)

/-- The status transition applied to each matched row. -/
def closeProposal (p : Proposal) : Proposal :=
  { p with status := .completed }

/-- closeExpiredProposals (lines 420-444): one
`update .. set status='completed' where status='active' and end_date < now`
returning the updated rows, then a full cache clear. -/
def closeExpiredProposals (now : ℕ) (st : GovState) :
    List Proposal × GovState :=
  ((st.proposals.filter (isExpired now)).map closeProposal,
    { st with
      proposals := st.proposals.map (fun p =>
        if isExpired now p then closeProposal p else p)
      cache := [] })

/-! ## Concrete inputs used by counterexamples and witnesses -/

/-- A balance row holding 100 spendable tokens. -/
def rec100 : BalanceRecord :=
  { balance := 100, total_earned := 100, total_spent := 0, locked_amount := 0 }

/-- A balance row holding nothing (everything already spent). -/
def rec0 : BalanceRecord :=
  { balance := 0, total_earned := 100, total_spent := 100, locked_amount := 0 }

/-- Ledger state with one funded account and a cold cache. -/
def exLedger1 : LedgerState :=
  { balances := [("0xa", rec100)], cache := [] }

/-- Ledger state whose stored balance for 0xa is empty while its cache still
holds the one-minute-old record with 100 tokens. -/
def exLedger2 : LedgerState :=
  { balances := [("0xa", rec0)]
    cache := [("balance_0xa",
      { data := rec100, timestamp := 0, ttl := some CACHE_TTL_balance })] }

/-- Statistics input: one empty account and one holding 10 tokens. -/
def exStatRows : List BalanceRecord :=
  [{ balance := 0, total_earned := 0, total_spent := 0, locked_amount := 0 },
   { balance := 10, total_earned := 10, total_spent := 0, locked_amount := 0 }]

/-- An active proposal (id 1) whose vote window ends at time 1000. -/
def exProposal : Proposal :=
  { id := 1, creator_address := "0xc", title := "t", description := "d"
    category := "general", options := ["Yes", "No"], status := .active
    start_date := 0, end_date := 1000 }

/-- A cancelled proposal (id 2) already past its end date. -/
def exCancelled : Proposal :=
  { id := 2, creator_address := "0xc", title := "t2", description := "d2"
    category := "general", options := ["Yes", "No"], status := .cancelled
    start_date := 0, end_date := 10 }

/-- An existing vote by 0xv on proposal 1. -/
def exVote : Vote :=
  { proposal_id := 1, voter_address := "0xv", option := "Yes", voting_power := 1 }

/-- Governance state: one active and one cancelled proposal, one PRO-tier
creator, one existing vote, cold cache. -/
def exGov : GovState :=
  { proposals := [exProposal, exCancelled]
    votes := [exVote]
    tiers := [("0xc", "PRO")]
    cache := [] }

/-- Proposal data with an explicitly empty options array. -/
def exDataEmptyOptions : ProposalData :=
  { title := "t", description := "d", category := "general"
    options := some [], durationDays := none }

/-- Proposal data with duplicate options. -/
def exDataDupOptions : ProposalData :=
  { title := "t", description := "d", category := "general"
    options := some ["Yes", "Yes"], durationDays := none }

/-- Proposal data asking for a 3-day voting window. -/
def exDataDuration3 : ProposalData :=
  { title := "t", description := "d", category := "general"
    options := none, durationDays := some 3 }

/-- The proposal createProposal builds from `exDataEmptyOptions` at time 0
against `exGov`. -/
def exEmptyOptionsProposal : Proposal :=
  { id := 2, creator_address := "0xc", title := "t", description := "d"
    category := "general", options := [], status := .active
    start_date := 0, end_date := VOTING_DURATION }

/-- The proposal createProposal builds from `exDataDupOptions` at time 0
against `exGov`. -/
def exDupOptionsProposal : Proposal :=
  { id := 2, creator_address := "0xc", title := "t", description := "d"
    category := "general", options := ["Yes", "Yes"], status := .active
    start_date := 0, end_date := VOTING_DURATION }

/-- The proposal createProposal builds from `exDataDuration3` at time 0
against `exGov`: a fixed seven-day window, not the requested three days. -/
def exDefaultProposal : Proposal :=
  { id := 2, creator_address := "0xc", title := "t", description := "d"
    category := "general", options := ["Yes", "No"], status := .active
    start_date := 0, end_date := 604800000 }

/-- The governance state after that createProposal call. -/
def exAfterCreate : GovState :=
  (createProposal 0 exGov "0xc" exDataDuration3).2

/-- The governance state getProposal leaves behind after a cold-cache fetch of
proposal 1 at time 5. -/
def exGovAfterGet : GovState :=
  { exGov with
    cache := govSetCached exGov.cache 1 (processProposal 5 exProposal) 5
      CACHE_TTL_proposals }

/-- The second vote castVote inserts for 0xv on proposal 1 when the
existing-vote read fails (0xv has no tier row, so NOMAD power 1). -/
def exDupVote : Vote :=
  { proposal_id := 1, voter_address := "0xv", option := "Yes", voting_power := 1 }

/-- A short castVote trace: a duplicate vote by 0xv, then a first and a
duplicate vote by 0xw. -/
def exReqs : List VoteReq :=
  [{ now := 5, voter := "0xv", proposalId := 1, option := "Yes" },
   { now := 6, voter := "0xw", proposalId := 1, option := "No" },
   { now := 7, voter := "0xw", proposalId := 1, option := "No" }]

/-! ## Theorems settling the claims -/

/-- C10: every amount above 1,000,000 submitted to any of the five token
endpoints is rejected with the `Amount is too large` validation error before
the token service is invoked. -/
theorem amount_cap_rejected_before_service
    (q : ℚ) (toAddr ua desc ud : String) (up : Option ℕ) (now : ℕ)
    (hq : 1000000 < q) (hto : toAddr ≠ "") (hua : ua ≠ "") (hd : desc ≠ "")
    (hud : ud ≠ "") :
    transferTokensHandler toAddr (.num q) = .badRequest "Amount is too large" "INVALID_AMOUNT"
    ∧ addTokensHandler ua (.num q) desc = .badRequest "Amount is too large" "INVALID_AMOUNT"
    ∧ spendTokensHandler ua (.num q) desc = .badRequest "Amount is too large" "INVALID_AMOUNT"
    ∧ lockTokensHandler (.num q) desc ud up now = .badRequest "Amount is too large" "INVALID_AMOUNT"
    ∧ unlockTokensHandler (.num q) desc = .badRequest "Amount is too large" "INVALID_AMOUNT" := by
  have hq0 : ¬ q = 0 := by intro h; rw [h] at hq; norm_num at hq
  have htr : AmountInput.truthy (.num q) = true := by
    simp [AmountInput.truthy, hq0]
  have hle : ¬ q ≤ 0 := by
    intro h
    exact absurd (lt_of_lt_of_le hq h) (by norm_num)
  have hval : validateAmount (.num q) = .invalid "Amount is too large" := by
    simp [validateAmount, hle, hq]
  refine ⟨?_, ?_, ?_, ?_, ?_⟩ <;>
    simp [transferTokensHandler, addTokensHandler, spendTokensHandler,
      lockTokensHandler, unlockTokensHandler, htr, hval, hto, hua, hd, hud]

/-- Witness for C10 at the concrete amount 2,000,000. -/
theorem amount_cap_rejected_before_service_witness :
    transferTokensHandler "0xdef" (.num 2000000) = .badRequest "Amount is too large" "INVALID_AMOUNT"
    ∧ addTokensHandler "0xabc" (.num 2000000) "reward" = .badRequest "Amount is too large" "INVALID_AMOUNT"
    ∧ spendTokensHandler "0xabc" (.num 2000000) "reward" = .badRequest "Amount is too large" "INVALID_AMOUNT"
    ∧ lockTokensHandler (.num 2000000) "reward" "2030-01-01" (some 5) 1 = .badRequest "Amount is too large" "INVALID_AMOUNT"
    ∧ unlockTokensHandler (.num 2000000) "reward" = .badRequest "Amount is too large" "INVALID_AMOUNT" :=
  amount_cap_rejected_before_service 2000000 "0xdef" "0xabc" "reward" "2030-01-01"
    (some 5) 1 (by norm_num) (by decide) (by decide) (by decide) (by decide)

/-- C1 counterexample: a transfer whose sender and recipient coincide is not
rejected: with 100 stored tokens, transferTokens from 0xa to 0xa reports
success instead of failing with InvalidRecipient (neither the service, lines
171-208, nor the controller, lines 75-124, compares the two addresses). -/
theorem transfer_self_not_rejected :
    (transferTokens 0 exLedger1 "0xa" "0xa" 40).1 = .ok := by decide

/-- C1 amended: transferTokens performs no fromAddress = toAddress check:
whenever the sender balance read through getUserBalance passes the
sufficiency check, a self-transfer proceeds to the store's transfer procedure
and the service reports success; no InvalidRecipient rejection exists. -/
theorem transfer_self_no_invalid_recipient (now : ℕ) (st : LedgerState)
    (fr : String) (amount : ℚ) (b : BalanceRecord) (c : BalanceCache)
    (h : getUserBalanceFrom now st.cache fr (readBalanceRow st.balances fr)
      = (some b, c))
    (hb : ¬ b.balance < amount) :
    (transferTokens now st fr fr amount).1 = .ok := by
  simp [transferTokens, h, hb]

/-- Witness for the amended C1 at a funded account. -/
theorem transfer_self_no_invalid_recipient_witness :
    (transferTokens 5 exLedger1 "0xa" "0xa" 40).1 = .ok :=
  transfer_self_no_invalid_recipient 5 exLedger1 "0xa" 40 rec100
    (setCachedData [] "balance_0xa" rec100 5 (some CACHE_TTL_balance))
    (by decide) (by decide)

/-- C2 counterexample: with a one-minute-old cache entry recording 100 tokens
while the stored balance row holds 0, spendTokens passes its sufficiency
check and reports success: the debit was decided by the cached balance, not
by the current stored balance. -/
theorem spend_decides_from_cached_balance :
    (spendTokens 60000 exLedger2 "0xa" 50).1 = .ok
    ∧ (storedBalance exLedger2.balances "0xa").balance < 50 := by
  exact ⟨by decide, by decide⟩

/-- C2 amended: the sufficiency checks of spendTokens and transferTokens read
the balance through getUserBalance: when the cache holds a fresh entry for
the address the check is decided by that cached record, and only on a cache
miss by the stored row (the zero record for an absent row). -/
theorem sufficiency_check_balance_source (now : ℕ) (st : LedgerState)
    (addr toAddr : String) (amount : ℚ) :
    (∀ e c, getCachedData now st.cache ("balance_" ++ addr) = (some e, c) →
      ((spendTokens now st addr amount).1 = .insufficientBalance
        ↔ e.balance < amount)
      ∧ ((transferTokens now st addr toAddr amount).1 = .insufficientBalance
        ↔ e.balance < amount))
    ∧ (∀ c, getCachedData now st.cache ("balance_" ++ addr) = (none, c) →
      ((spendTokens now st addr amount).1 = .insufficientBalance
        ↔ (storedBalance st.balances addr).balance < amount)
      ∧ ((transferTokens now st addr toAddr amount).1 = .insufficientBalance
        ↔ (storedBalance st.balances addr).balance < amount)) := by
  constructor
  · intro e c h
    constructor
    · by_cases hb : e.balance < amount <;>
        simp [spendTokens, getUserBalanceFrom, h, hb]
    · by_cases hb : e.balance < amount <;>
        simp [transferTokens, getUserBalanceFrom, h, hb]
  · intro c h
    cases hl : st.balances.lookup addr with
    | some r =>
      have hs : storedBalance st.balances addr = r := by
        simp [storedBalance, hl]
      constructor
      · by_cases hb : r.balance < amount <;>
          simp [spendTokens, getUserBalanceFrom, readBalanceRow, h, hl, hs, hb]
      · by_cases hb : r.balance < amount <;>
          simp [transferTokens, getUserBalanceFrom, readBalanceRow, h, hl, hs, hb]
    | none =>
      have hs : storedBalance st.balances addr = defaultBalance := by
        simp [storedBalance, hl]
      constructor
      · by_cases hb : defaultBalance.balance < amount <;>
          simp [spendTokens, getUserBalanceFrom, readBalanceRow, h, hl, hs, hb]
      · by_cases hb : defaultBalance.balance < amount <;>
          simp [transferTokens, getUserBalanceFrom, readBalanceRow, h, hl, hs, hb]

/-- Witness for the amended C2 at the stale-cache state. -/
theorem sufficiency_check_balance_source_witness :
    ((spendTokens 60000 exLedger2 "0xa" 50).1 = .insufficientBalance
      ↔ rec100.balance < 50)
    ∧ ((transferTokens 60000 exLedger2 "0xa" "0xb" 50).1 = .insufficientBalance
      ↔ rec100.balance < 50) :=
  (sufficiency_check_balance_source 60000 exLedger2 "0xa" "0xb" 50).1 rec100
    exLedger2.cache (by decide)

/-- C9 counterexample: store read failures are not always surfaced:
getUserVotingPower returns the default power 1 on an arbitrary store error,
indistinguishable from a successful NOMAD-tier read, and getUserBalance turns
a missing-table store error into the zero-valued default balance instead of
an error. -/
theorem store_errors_swallowed :
    getUserVotingPower .errOther = 1
    ∧ getUserVotingPower (.row "NOMAD") = 1
    ∧ (getUserBalanceFrom 0 [] "0xa" .errMissingTable).1 = some defaultBalance := by
  exact ⟨by decide, by decide, by decide⟩

/-- C9 amended: getUserVotingPower maps every store failure to the default
power 1; getUserBalance maps a missing-table store error on a cache miss to
the zero-valued default record; only the remaining store errors of
getUserBalance are rethrown to the caller. -/
theorem store_error_fallbacks (now : ℕ) (cache : BalanceCache) (addr : String) :
    getUserVotingPower .errOther = 1
    ∧ ((getCachedData now cache ("balance_" ++ addr)).1 = none →
        (getUserBalanceFrom now cache addr .errMissingTable).1
          = some defaultBalance)
    ∧ ((getCachedData now cache ("balance_" ++ addr)).1 = none →
        (getUserBalanceFrom now cache addr .errOther).1 = none) := by
  refine ⟨rfl, ?_, ?_⟩ <;>
  · intro h
    rcases hg : getCachedData now cache ("balance_" ++ addr) with ⟨v, c⟩
    rw [hg] at h
    simp only at h
    subst h
    simp [getUserBalanceFrom, hg]

/-- Witness for the amended C9 on the empty cache. -/
theorem store_error_fallbacks_witness :
    getUserVotingPower .errOther = 1
    ∧ (getUserBalanceFrom 7 [] "0xa" .errMissingTable).1 = some defaultBalance
    ∧ (getUserBalanceFrom 7 [] "0xa" .errOther).1 = none :=
  ⟨(store_error_fallbacks 7 [] "0xa").1,
   (store_error_fallbacks 7 [] "0xa").2.1 (by decide),
   (store_error_fallbacks 7 [] "0xa").2.2 (by decide)⟩

/-- C4 counterexample: with one empty account and one holding 10 tokens,
totalHolders is 1 but averageBalance is 5, circulatingSupply divided by the
two account rows, not circulatingSupply / totalHolders = 10. -/
theorem average_balance_divides_by_accounts :
    (getTokenStatistics exStatRows).totalHolders = 1
    ∧ (getTokenStatistics exStatRows).averageBalance = 5
    ∧ specAverageBalance exStatRows = 10
    ∧ (getTokenStatistics exStatRows).averageBalance
      ≠ specAverageBalance exStatRows := by
  have h1 : (getTokenStatistics exStatRows).totalHolders = 1 := by decide
  have h2 : (getTokenStatistics exStatRows).averageBalance = 5 := by
    simp only [getTokenStatistics, exStatRows]
    norm_num
  have h3 : specAverageBalance exStatRows = 10 := by
    simp only [specAverageBalance, getTokenStatistics, exStatRows]
    norm_num
  refine ⟨h1, h2, h3, ?_⟩
  rw [h2, h3]
  norm_num

/-- C4 amended: totalHolders counts the accounts with positive balance, while
averageBalance is circulatingSupply divided by the number of account rows
(0 when there are none); in particular, on a store where every account row
has a positive balance the code's average coincides with the spec's
circulatingSupply / totalHolders. -/
theorem statistics_average (balances : List BalanceRecord) :
    (getTokenStatistics balances).totalHolders
      = (balances.filter (fun b => decide (0 < b.balance))).length
    ∧ (balances ≠ [] →
        (getTokenStatistics balances).averageBalance * (balances.length : ℚ)
          = (getTokenStatistics balances).circulatingSupply)
    ∧ ((∀ b ∈ balances, 0 < b.balance) →
        (getTokenStatistics balances).averageBalance
          = specAverageBalance balances) := by
  refine ⟨rfl, ?_, ?_⟩
  · intro hne
    have hlen : 0 < balances.length := List.length_pos.mpr hne
    have hq : (balances.length : ℚ) ≠ 0 := by
      exact_mod_cast Nat.pos_iff_ne_zero.mp hlen
    simp [getTokenStatistics, hlen, div_mul_cancel₀ _ hq]
  · intro hall
    have hf : balances.filter (fun b => decide (0 < b.balance)) = balances :=
      List.filter_eq_self.mpr (fun a ha => by simpa using hall a ha)
    rcases eq_or_ne balances [] with rfl | hne
    · simp [specAverageBalance, getTokenStatistics]
    · have hlen : 0 < balances.length := List.length_pos.mpr hne
      simp [specAverageBalance, getTokenStatistics, hf, hlen]

/-- Witness for the amended C4 on a store with a single funded account. -/
theorem statistics_average_witness :
    (getTokenStatistics [rec100]).totalHolders
      = (([rec100] : List BalanceRecord).filter
          (fun b => decide (0 < b.balance))).length
    ∧ (getTokenStatistics [rec100]).averageBalance
        * (([rec100] : List BalanceRecord).length : ℚ)
      = (getTokenStatistics [rec100]).circulatingSupply
    ∧ (getTokenStatistics [rec100]).averageBalance
      = specAverageBalance [rec100] :=
  ⟨(statistics_average [rec100]).1,
   (statistics_average [rec100]).2.1 (by decide),
   (statistics_average [rec100]).2.2 (by decide)⟩

/-- C5 counterexample: an active proposal whose end_date equals now is left
untouched by closeExpiredProposals and is not returned: the update's filter
is `end_date < now`, strictly. -/
theorem close_expired_excludes_boundary :
    exProposal.status = .active
    ∧ exProposal.end_date = 1000
    ∧ (closeExpiredProposals 1000 exGov).1 = []
    ∧ (closeExpiredProposals 1000 exGov).2.proposals = exGov.proposals := by
  exact ⟨by decide, by decide, by decide, by decide⟩

/-- C5 amended: exactly the active proposals with end_date strictly earlier
than now are transitioned to completed and returned; a proposal whose
end_date equals now, like every other non-matching proposal, is unchanged. -/
theorem close_expired_strict (now : ℕ) (st : GovState) :
    (∀ q, q ∈ (closeExpiredProposals now st).1 ↔
      ∃ p, p ∈ st.proposals ∧ p.status = .active ∧ p.end_date < now
        ∧ q = closeProposal p)
    ∧ List.Forall₂ (fun p q =>
        q = if p.status = .active ∧ p.end_date < now then closeProposal p else p)
      st.proposals (closeExpiredProposals now st).2.proposals := by
  constructor
  · intro q
    simp only [closeExpiredProposals, List.mem_map, List.mem_filter,
      isExpired, Bool.and_eq_true, beq_iff_eq, decide_eq_true_eq]
    constructor
    · rintro ⟨p, ⟨hp, hs, he⟩, rfl⟩
      exact ⟨p, hp, hs, he, rfl⟩
    · rintro ⟨p, hp, hs, he, rfl⟩
      exact ⟨p, ⟨hp, hs, he⟩, rfl⟩
  · simp only [closeExpiredProposals]
    rw [List.forall₂_map_right_iff, List.forall₂_same]
    intro p _
    by_cases h : isExpired now p = true
    · have hp : p.status = .active ∧ p.end_date < now := by
        simpa [isExpired] using h
      simp [h, hp]
    · have hp : ¬ (p.status = .active ∧ p.end_date < now) := by
        simpa [isExpired] using h
      simp [h, hp]

/-- Witness for the amended C5 at time 2000 against the example store. -/
theorem close_expired_strict_witness :
    (closeProposal exProposal ∈ (closeExpiredProposals 2000 exGov).1 ↔
      ∃ p, p ∈ exGov.proposals ∧ p.status = .active ∧ p.end_date < 2000
        ∧ closeProposal exProposal = closeProposal p)
    ∧ List.Forall₂ (fun p q =>
        q = if p.status = .active ∧ p.end_date < 2000 then closeProposal p else p)
      exGov.proposals (closeExpiredProposals 2000 exGov).2.proposals :=
  ⟨(close_expired_strict 2000 exGov).1 (closeProposal exProposal),
   (close_expired_strict 2000 exGov).2⟩

/-- C6: closeExpiredProposals is idempotent: an immediate second run at the
same time returns the empty list, and no run ever changes a cancelled
proposal. -/
theorem close_expired_idempotent (now : ℕ) (st : GovState) :
    (closeExpiredProposals now (closeExpiredProposals now st).2).1 = []
    ∧ List.Forall₂ (fun p q => p.status = .cancelled → q = p)
        st.proposals (closeExpiredProposals now st).2.proposals := by
  constructor
  · simp only [closeExpiredProposals, List.map_eq_nil_iff]
    refine List.filter_eq_nil_iff.mpr ?_
    intro a ha
    rcases List.mem_map.mp ha with ⟨p, _, rfl⟩
    by_cases h : isExpired now p = true
    · rw [if_pos h]
      simp [isExpired, closeProposal]
    · rw [if_neg h]
      exact h
  · simp only [closeExpiredProposals]
    rw [List.forall₂_map_right_iff, List.forall₂_same]
    intro p _ hc
    have h : isExpired now p = false := by
      simp [isExpired, hc]
    simp [h]

/-- Witness for C6 at time 2000 against the example store. -/
theorem close_expired_idempotent_witness :
    (closeExpiredProposals 2000 (closeExpiredProposals 2000 exGov).2).1 = []
    ∧ List.Forall₂ (fun p q => p.status = .cancelled → q = p)
        exGov.proposals (closeExpiredProposals 2000 exGov).2.proposals :=
  close_expired_idempotent 2000 exGov

/-- C7 counterexample: createProposal performs no options validation: an
explicitly empty options array and a duplicate options array are both
accepted, the proposal is created and stored verbatim, with no
InvalidOptions failure. -/
theorem create_proposal_accepts_invalid_options :
    (createProposal 0 exGov "0xc" exDataEmptyOptions).1 = .ok exEmptyOptionsProposal
    ∧ exEmptyOptionsProposal.options = []
    ∧ (createProposal 0 exGov "0xc" exDataEmptyOptions).2.proposals
      = exGov.proposals ++ [exEmptyOptionsProposal]
    ∧ (createProposal 0 exGov "0xc" exDataDupOptions).1 = .ok exDupOptionsProposal
    ∧ exDupOptionsProposal.options = ["Yes", "Yes"] := by
  exact ⟨by decide, by decide, by decide, by decide, by decide⟩

/-- C7 amended: createProposal does not validate options: provided the
creator's voting power meets the minimum and title, description and category
are nonempty, the call succeeds whatever the options value, storing the
given list verbatim (so empty and duplicate option lists are accepted) and
substituting the default pair only when the field is absent. -/
theorem create_proposal_ignores_options (now : ℕ) (st : GovState)
    (addr : String) (d : ProposalData)
    (hp : ¬ getUserVotingPower (readTierRow st.tiers addr) < MIN_VOTING_POWER)
    (ht : d.title ≠ "") (hd : d.description ≠ "") (hc : d.category ≠ "") :
    ∃ p st2, createProposal now st addr d = (.ok p, st2)
      ∧ p.options = d.options.getD ["Yes", "No"]
      ∧ st2.proposals = st.proposals ++ [p] := by
  unfold createProposal
  rw [if_neg hp, if_neg (by simp [ht, hd, hc])]
  exact ⟨_, _, rfl, rfl, rfl⟩

/-- Witness for the amended C7 with duplicate options. -/
theorem create_proposal_ignores_options_witness :
    ∃ p st2, createProposal 3 exGov "0xc" exDataDupOptions = (.ok p, st2)
      ∧ p.options = exDataDupOptions.options.getD ["Yes", "No"]
      ∧ st2.proposals = exGov.proposals ++ [p] :=
  create_proposal_ignores_options 3 exGov "0xc" exDataDupOptions
    (by decide) (by decide) (by decide) (by decide)

/-- C8 counterexample: a createProposal request carrying durationDays = 3
still gets the fixed seven-day window: the created end_date is 604800000
milliseconds after now, not the 259200000 milliseconds three days would
give; no duration argument is read. -/
theorem create_proposal_fixed_duration :
    exDataDuration3.durationDays = some 3
    ∧ (createProposal 0 exGov "0xc" exDataDuration3).1 = .ok exDefaultProposal
    ∧ exDefaultProposal.start_date = 0
    ∧ exDefaultProposal.end_date = 604800000
    ∧ (604800000 : ℕ) ≠ 0 + 3 * 24 * 60 * 60 * 1000 := by
  exact ⟨by decide, by decide, by decide, by decide, by decide⟩

/-- C8 amended: every proposal a successful createProposal call returns has
status = active, start_date = now, and end_date = now + the fixed 7-day
VOTING_DURATION, for every request body, whatever durationDays value it
carries. -/
theorem create_proposal_dates (now : ℕ) (st : GovState) (addr : String)
    (d : ProposalData) (p : Proposal) (st2 : GovState)
    (h : createProposal now st addr d = (.ok p, st2)) :
    p.status = .active ∧ p.start_date = now
    ∧ p.end_date = now + VOTING_DURATION := by
  by_cases h1 : getUserVotingPower (readTierRow st.tiers addr) < MIN_VOTING_POWER
  · simp [createProposal, h1] at h
  · by_cases h2 : d.title = "" ∨ d.description = "" ∨ d.category = ""
    · simp [createProposal, h1, h2] at h
    · simp only [createProposal, if_neg h1, if_neg h2, Prod.mk.injEq,
        CreateResult.ok.injEq] at h
      rcases h with ⟨h3, _⟩
      subst h3
      exact ⟨rfl, rfl, rfl⟩

/-- Witness for the amended C8 at the durationDays = 3 request. -/
theorem create_proposal_dates_witness :
    exDefaultProposal.status = .active ∧ exDefaultProposal.start_date = 0
    ∧ exDefaultProposal.end_date = 0 + VOTING_DURATION :=
  create_proposal_dates 0 exGov "0xc" exDataDuration3 exDefaultProposal
    exAfterCreate (by decide)

/-- getProposal only fills the proposal cache: votes are untouched. -/
theorem getProposal_preserves_votes (now : ℕ) (st : GovState) (pid : ℕ)
    (proc : ProcessedProposal) (st1 : GovState)
    (h : getProposal now st pid = some (proc, st1)) : st1.votes = st.votes := by
  unfold getProposal at h
  split at h
  · simp only [Option.some.injEq, Prod.mk.injEq] at h
    rw [← h.2]
  · split at h
    · exact absurd h (by simp)
    · simp only [Option.some.injEq, Prod.mk.injEq] at h
      rw [← h.2]

/-- In a failure-free execution, castVote either leaves the vote table
unchanged or appends one vote for a pair that had none. -/
theorem castVote_votes_shape (now : ℕ) (st : GovState) (voter : String)
    (pid : ℕ) (opt : String) :
    (castVote now st voter pid opt).2.votes = st.votes
    ∨ (findVote st.votes pid voter = none
       ∧ ∃ w : Vote, w.proposal_id = pid ∧ w.voter_address = voter
         ∧ (castVote now st voter pid opt).2.votes = st.votes ++ [w]) := by
  cases hg : getProposal now st pid with
  | none =>
    left
    simp [castVote, castVoteFrom, hg]
  | some pr =>
    rcases pr with ⟨proc, st1⟩
    have hv : st1.votes = st.votes :=
      getProposal_preserves_votes now st pid proc st1 hg
    by_cases ha : proc.is_active = false
    · left
      have h2 : (castVote now st voter pid opt).2 = st1 := by
        simp [castVote, castVoteFrom, hg, ha]
      rw [h2, hv]
    · cases hf : findVote st.votes pid voter with
      | some v =>
        left
        have hr : readVoteRow st.votes pid voter = .row v := by
          simp [readVoteRow, hf]
        have h2 : (castVote now st voter pid opt).2 = st1 := by
          simp [castVote, castVoteFrom, hg, ha, hr, VoteRead.data]
        rw [h2, hv]
      | none =>
        have hr : readVoteRow st.votes pid voter = .errNoRow := by
          simp [readVoteRow, hf]
        by_cases ho : proc.proposal.options.contains opt = false
        · left
          have hom : opt ∉ proc.proposal.options := by simpa using ho
          have h2 : (castVote now st voter pid opt).2 = st1 := by
            simp [castVote, castVoteFrom, hg, ha, hr, VoteRead.data, hom]
          rw [h2, hv]
        · right
          have hom : opt ∈ proc.proposal.options := by simpa using ho
          refine ⟨rfl, ⟨pid, voter, opt,
            getUserVotingPower (readTierRow st1.tiers voter)⟩, rfl, rfl, ?_⟩
          have h2 : (castVote now st voter pid opt).2.votes
              = st1.votes ++ [⟨pid, voter, opt,
                getUserVotingPower (readTierRow st1.tiers voter)⟩] := by
            simp [castVote, castVoteFrom, hg, ha, hr, VoteRead.data, hom]
          rw [h2, hv]

/-- Appending a vote for a pair with no existing vote keeps the table
duplicate-free. -/
theorem dupFree_append (votes : List Vote) (w : Vote) (hd : dupFree votes)
    (hf : findVote votes w.proposal_id w.voter_address = none) :
    dupFree (votes ++ [w]) := by
  rw [dupFree, List.pairwise_append]
  refine ⟨hd, List.pairwise_singleton _ _, ?_⟩
  intro a ha b hb
  rcases List.mem_singleton.mp hb with rfl
  have := List.find?_eq_none.mp hf a ha
  simp only [Bool.and_eq_true, beq_iff_eq, not_and] at this
  intro hs
  exact this hs.1 hs.2

/-- C3 amended: in executions whose existing-vote selects succeed, at most
one vote exists per (proposal, voter) pair: an existing vote makes castVote
fail, with AlreadyVoted whenever the proposal resolves as active, and no
sequence of failure-free castVote calls starting from a duplicate-free vote
table ever produces a duplicate. (When that select's store read fails, its
discarded error lets a duplicate through: see the counterexample.) -/
theorem cast_vote_at_most_one_per_pair :
    (∀ st reqs, dupFree st.votes → dupFree (runVotes st reqs).votes)
    ∧ (∀ now st voter pid opt v, findVote st.votes pid voter ≠ none →
        (castVote now st voter pid opt).1 ≠ .ok v)
    ∧ (∀ now st voter pid opt proc st1,
        getProposal now st pid = some (proc, st1) → proc.is_active = true →
        findVote st.votes pid voter ≠ none →
        (castVote now st voter pid opt).1 = .alreadyVoted) := by
  refine ⟨?_, ?_, ?_⟩
  · intro st reqs
    induction reqs generalizing st with
    | nil => exact fun h => h
    | cons r rs ih =>
      intro hd
      refine ih _ ?_
      rcases castVote_votes_shape r.now st r.voter r.proposalId r.option with
        h | ⟨hf, w, hw1, hw2, h⟩
      · rw [h]; exact hd
      · rw [h]
        exact dupFree_append st.votes w hd (by rw [hw1, hw2]; exact hf)
  · intro now st voter pid opt v hne
    cases hf : findVote st.votes pid voter with
    | none => exact absurd hf hne
    | some u =>
      have hr : readVoteRow st.votes pid voter = .row u := by
        simp [readVoteRow, hf]
      cases hg : getProposal now st pid with
      | none => simp [castVote, castVoteFrom, hg]
      | some pr =>
        rcases pr with ⟨proc, st1⟩
        by_cases ha : proc.is_active = false
        · simp [castVote, castVoteFrom, hg, ha]
        · simp [castVote, castVoteFrom, hg, ha, hr, VoteRead.data]
  · intro now st voter pid opt proc st1 hg ha hne
    cases hf : findVote st.votes pid voter with
    | none => exact absurd hf hne
    | some u =>
      have hr : readVoteRow st.votes pid voter = .row u := by
        simp [readVoteRow, hf]
      simp [castVote, castVoteFrom, hg, ha, hr, VoteRead.data]

/-- Witness for the amended C3 on the example trace: the trace ends
duplicate-free, the duplicate vote is not accepted, and it fails with
AlreadyVoted. -/
theorem cast_vote_at_most_one_per_pair_witness :
    dupFree (runVotes exGov exReqs).votes
    ∧ (castVote 5 exGov "0xv" 1 "Yes").1 ≠ .ok exVote
    ∧ (castVote 5 exGov "0xv" 1 "Yes").1 = .alreadyVoted :=
  ⟨cast_vote_at_most_one_per_pair.1 exGov exReqs
      (List.pairwise_singleton _ _),
   cast_vote_at_most_one_per_pair.2.1 5 exGov "0xv" 1 "Yes" exVote (by decide),
   cast_vote_at_most_one_per_pair.2.2 5 exGov "0xv" 1 "Yes"
     (processProposal 5 exProposal) exGovAfterGet (by decide) (by decide)
     (by decide)⟩

/-- C3 counterexample: the existing-vote select's error is discarded (line
262), so in an execution where that store read fails, castVote proceeds past
the existing vote by 0xv on proposal 1 and inserts a second
(proposal_id, voter_address) row for the same pair (no unique constraint
exists in the repository to stop the insert): the vote table ends with a
duplicate. -/
theorem duplicate_vote_after_swallowed_read_error :
    findVote exGov.votes 1 "0xv" = some exVote
    ∧ (castVoteFrom 5 exGov "0xv" 1 "Yes" .errOther).1 = .ok exDupVote
    ∧ (castVoteFrom 5 exGov "0xv" 1 "Yes" .errOther).2.votes
      = exGov.votes ++ [exDupVote]
    ∧ ¬ dupFree (castVoteFrom 5 exGov "0xv" 1 "Yes" .errOther).2.votes := by
  refine ⟨by decide, by decide, by decide, ?_⟩
  intro h
  have h2 : (castVoteFrom 5 exGov "0xv" 1 "Yes" .errOther).2.votes
      = [exVote, exDupVote] := by decide
  rw [h2] at h
  rcases List.pairwise_cons.mp h with ⟨h1, _⟩
  exact h1 exDupVote (List.mem_singleton.mpr rfl) ⟨rfl, rfl⟩

end Aionet
